import Mathlib

/-!
Shallow embedding of the cowtracker core (src/cowtracker/cows.py and
src/cowtracker/messages.py): the warning evaluator, the movement tracker,
the fleet checkup and the payload decoder, with theorems checking the
specification's claims against them.

External collaborators are passed in as parameters: the geodesic distance
function (geopy's geodist) is a parameter d, the wall clock (utcnow) is a
parameter now, and database records become explicit lists.  Machine floats
become rationals.
-/

namespace Cowtracker

/-- Source _WarningType (cows.py). -/
inductive WCode where
  | NO_MSG_RECV
  | BATT_LOW
  | COW_NOT_MOVING
  | COW_TOO_FAR
deriving DecidableEq, Repr

/-- Source _WarningVariant (cows.py). -/
inductive WVariant where
  | WARNING
  | DANGER
  | INFO
  | NONE
deriving DecidableEq, Repr

/-- Payload carried by a warning: the battery warnings carry the
(voltage, capacity) pair, distance and staleness warnings carry a
truncated integer, the not-moving warning carries a timestamp. -/
inductive WValue where
  | pairQ (v cap : ℚ)
  | intV (n : ℤ)
  | tsV (t : ℚ)
deriving DecidableEq, Repr

/-- Source _Warning (cows.py): a (code, variant, value) triple. -/
structure Warning where
  code : WCode
  variant : WVariant
  value : WValue
deriving DecidableEq, Repr

/-- The columns of a meas row that _PointRecord (cows.py) reads:
t, pos, accuracy, batt_v, batt_cap. -/
structure PointRec where
  t : ℚ
  pos : ℚ × ℚ
  accuracy : ℚ
  battV : ℚ
  battCap : ℚ
deriving DecidableEq, Repr

/-- The module-level warning thresholds of cows.py, set by set_warn_levels. -/
structure Cfg where
  battVNormal : ℚ
  battVWarn : ℚ
  battCapWarn : ℚ
  battCapDanger : ℚ
  refPos : ℚ × ℚ
  distMWarn : ℚ
  distMDanger : ℚ
  timeSWarn : ℚ
  timeSDanger : ℚ
deriving DecidableEq, Repr

/-- Python int() applied to a float/rational: truncation toward zero. -/
def pyTrunc (q : ℚ) : ℤ :=
  if 0 ≤ q then ⌊q⌋ else ⌈q⌉

/-- Source _PointRecord.get_warnings (cows.py).  The geodesic distance and
the current time are parameters; each rule appends its warning to the list
independently of the others, in source order.  The record's status
attribute, mutated alongside, plays no role in the returned list and is
not modelled. -/
def get_warnings (cfg : Cfg) (d : ℚ × ℚ → ℚ × ℚ → ℚ) (now : ℚ)
    (r : PointRec) : List Warning :=
  let dist2ref := d r.pos cfg.refPos
  let deltaT := now - r.t
  (if r.battV < cfg.battVNormal ∧ r.battV > cfg.battVWarn ∨
      r.battCap < cfg.battCapWarn ∧ r.battCap > cfg.battCapDanger then
    [⟨WCode.BATT_LOW, WVariant.WARNING, WValue.pairQ r.battV r.battCap⟩]
  else []) ++
  (if r.battV < cfg.battVWarn ∨ r.battCap < cfg.battCapDanger then
    [⟨WCode.BATT_LOW, WVariant.DANGER, WValue.pairQ r.battV r.battCap⟩]
  else []) ++
  (if dist2ref > cfg.distMWarn ∧ dist2ref < cfg.distMDanger then
    [⟨WCode.COW_TOO_FAR, WVariant.WARNING, WValue.intV (pyTrunc dist2ref)⟩]
  else []) ++
  (if dist2ref > cfg.distMDanger then
    [⟨WCode.COW_TOO_FAR, WVariant.DANGER, WValue.intV (pyTrunc dist2ref)⟩]
  else []) ++
  (if deltaT > cfg.timeSWarn ∧ deltaT < cfg.timeSDanger then
    [⟨WCode.NO_MSG_RECV, WVariant.WARNING, WValue.intV (pyTrunc (deltaT / 3600))⟩]
  else []) ++
  (if deltaT > cfg.timeSDanger then
    [⟨WCode.NO_MSG_RECV, WVariant.DANGER, WValue.intV (pyTrunc (deltaT / 3600))⟩]
  else [])

namespace Cows

/-- Source Cows._is_same_pos (cows.py), verbatim: takes the larger of the
two accuracies and compares the geodesic distance with twice it using a
strict greater-than.  Its docstring says it checks whether the two points
are approximately the same. -/
def is_same_pos (d : ℚ × ℚ → ℚ × ℚ → ℚ) (p1 p2 : PointRec) : Bool :=
  let acc := max p1.accuracy p2.accuracy
  let delta := d p1.pos p2.pos
  decide (delta > 2 * acc)

/-- The while loop of Cows.check_cow_movement (cows.py): i starts at 3 and
p at points[3]; while i is in range and is_same_pos(p0, p) holds, the body
sets p to points[i] and then increments i, so each test uses the p assigned
by the previous iteration.  Structural recursion on an explicit fuel
counter; the caller passes fuel = points.length, more than the loop can
ever consume. -/
def scan_run (d : ℚ × ℚ → ℚ × ℚ → ℚ) (p0 : PointRec) (pts : List PointRec) :
    Nat → Nat → PointRec → PointRec
  | 0, _, p => p
  | fuel + 1, i, p =>
    if h : i < pts.length ∧ is_same_pos d p0 p then
      scan_run d p0 pts fuel (i + 1) (pts.get ⟨i, h.1⟩)
    else p

/-- Source Cows.check_cow_movement (cows.py) as a pure step function.
Inputs: the distance function, the local hour (from _get_localtime), the
device name (the mapping_by_deveui lookup result), the last 20 points
newest first, and the cows_not_moving cache.  Output: the new cache and
the list of notifications sent, each notification carrying the name and
the timestamp put into the email.  The night-skip guard, the dict write
and the email send follow the source line by line. -/
def check_cow_movement (d : ℚ × ℚ → ℚ × ℚ → ℚ) (hour : ℕ) (name : String)
    (points : List PointRec) (cache : String → Option Warning) :
    (String → Option Warning) × List (String × ℚ) :=
  if hour < 8 ∧ hour > 20 then (cache, [])
  else if h : points.length > 3 then
    let p0 := points.get ⟨0, by omega⟩
    let p1 := points.get ⟨1, by omega⟩
    let p2 := points.get ⟨2, by omega⟩
    if is_same_pos d p0 p1 ∧ is_same_pos d p0 p2 then
      let p := scan_run d p0 points points.length 3 (points.get ⟨3, by omega⟩)
      let w : Warning := ⟨WCode.COW_NOT_MOVING, WVariant.DANGER, WValue.tsV p.t⟩
      (fun n => if n = name then some w else cache n, [(name, p.t)])
    else (cache, [])
  else (cache, [])

/-- Source Cows.LAST_MSG_TIME_S_WARN (cows.py): 3600*3 seconds. -/
def LAST_MSG_TIME_S_WARN : ℚ := 3600 * 3

/-- The fleet-maximum scan of Cows._check_all_cows (cows.py): starting from
last_msg_received = 0 and last_msg_date = None, each record with a strictly
larger timestamp replaces both. -/
def last_msg_fold (devices : List (String × PointRec)) : ℚ × Option ℚ :=
  devices.foldl
    (fun acc nr => if nr.2.t > acc.1 then (nr.2.t, some nr.2.t) else acc)
    (0, none)

/-- The warning aggregation of Cows._check_all_cows (cows.py): each device
whose latest record yields a non-empty warning list is appended, in
iteration order, as a (name, warnings) pair. -/
def collect_warnings (cfg : Cfg) (d : ℚ × ℚ → ℚ × ℚ → ℚ) (now : ℚ)
    (devices : List (String × PointRec)) : List (String × List Warning) :=
  devices.foldl
    (fun ws nr =>
      if 0 < (get_warnings cfg d now nr.2).length then
        ws ++ [(nr.1, get_warnings cfg d now nr.2)]
      else ws)
    []

/-- The two email notifications Cows._check_all_cows can send in one cycle. -/
inductive Notification where
  | gateway (lastMsgDate : Option ℚ)
  | aggregate (warnings : List (String × List Warning))
deriving DecidableEq, Repr

/-- Source Cows._check_all_cows (cows.py) as a pure function from the
devices (name paired with the latest record each) and the clock to the
notification sent, if any.  The gateway branch returns early, before the
aggregation branch is considered; an empty warning list sends nothing. -/
def check_all_cows (cfg : Cfg) (d : ℚ × ℚ → ℚ × ℚ → ℚ) (now : ℚ)
    (devices : List (String × PointRec)) : Option Notification :=
  if now - (last_msg_fold devices).1 > LAST_MSG_TIME_S_WARN then
    some (Notification.gateway (last_msg_fold devices).2)
  else if (collect_warnings cfg d now devices).length = 0 then none
  else some (Notification.aggregate (collect_warnings cfg d now devices))

end Cows

namespace Message

/-- Source Message._signed (messages.py): subtract 1 shifted left by bits
when val is at least 1 shifted left by bits-1. -/
def signed (val bits : ℕ) : ℤ :=
  if (1 <<< (bits - 1) : ℕ) ≤ val then (val : ℤ) - ((1 <<< bits : ℕ) : ℤ)
  else (val : ℤ)

/-- Source Message._rdlsbf (messages.py): reads length bytes starting at
offset, least significant byte first.  The Python loop walks from
offset+length-1 down multiplying by 256; the value is the same base-256
sum, and an out-of-range index (an IndexError in Python) becomes none. -/
def rdlsbf (bs : List ℕ) : ℕ → ℕ → Option ℕ
  | _, 0 => some 0
  | offset, l + 1 =>
    match bs[offset]?, rdlsbf bs (offset + 1) l with
    | some b, some rest => some (b + 256 * rest)
    | _, _ => none

/-- The measurement dictionary Message.decode (messages.py) returns on port
136: status flags, battery voltage and capacity, temperature, position,
accuracy, plus the radio metadata carried over from the envelope. -/
structure Meas where
  devEui : ℕ
  statusError : Bool
  statusNoFix : Bool
  statusIndoor : Bool
  battery : ℚ
  battCapacity : ℚ
  temperature : ℤ
  latitude : ℚ
  longitude : ℚ
  accuracy : ℕ
  rssi : Option ℚ
  snr : Option ℚ
  sf : Option ℚ
deriving DecidableEq, Repr

/-- Source Message.decode (messages.py).  The frame bytes are the base64
decoded payload; devEui, rssi, snr, sf come from the envelope, as on the
Message object.  Bit operations are translated as: x AND 0x0F is x % 16,
x right-shift 4 is x >>> 4, x AND 0x7F is x % 128, x AND 0x0FFFFFFF is
x % 2^28, x AND 0x1FFFFFFF is x % 2^29, (x right-shift 29) AND 0x7 is
(x >>> 29) % 8, and a flags AND (1 shifted left k) truthiness test is
testBit k.  A port other than 136 or a frame too short yields none. -/
def decode (devEui : ℕ) (rssi snr sf : Option ℚ) (bs : List ℕ) (port : ℤ) :
    Option Meas :=
  if port = 136 then
    match bs[0]?, bs[1]?, bs[2]?, rdlsbf bs 3 4, rdlsbf bs 7 4 with
    | some flags, some b1, some b2, some lat4, some lonacc =>
      some
        { devEui := devEui
          statusError := flags.testBit 4
          statusNoFix := flags.testBit 3
          statusIndoor := flags.testBit 2
          battery := ((b1 % 16 : ℕ) + 25 : ℚ) / 10
          battCapacity := ((b1 >>> 4 : ℕ) * 100 : ℚ) / 15
          temperature := ((b2 % 128 : ℕ) : ℤ) - 32
          latitude := (signed (lat4 % 2 ^ 28) 28 : ℚ) / 1000000
          longitude := (signed (lonacc % 2 ^ 29) 29 : ℚ) / 1000000
          accuracy := 2 * ((lonacc >>> 29) % 8) + 2
          rssi := rssi
          snr := snr
          sf := sf }
    | _, _, _, _, _ => none
  else none

/-- A rendered SQL value in the INSERT of Message.store (messages.py):
either the literal NULL or a number. -/
inductive SqlVal where
  | null
  | num (q : ℚ)
deriving DecidableEq, Repr

/-- Python extended conditional x if x else NULL for a number x: zero is
falsy, so it renders as NULL. -/
def sql_of_q (q : ℚ) : SqlVal := if q = 0 then SqlVal.null else SqlVal.num q

/-- Same rendering for an integer-valued column. -/
def sql_of_z (z : ℤ) : SqlVal := if z = 0 then SqlVal.null else SqlVal.num (z : ℚ)

/-- Python x if x else NULL for an optional number x: both None and zero
are falsy and render as NULL. -/
def sql_of_opt (v : Option ℚ) : SqlVal :=
  match v with
  | none => SqlVal.null
  | some q => sql_of_q q

/-- The row of values Message.store (messages.py) interpolates into its
INSERT INTO meas statement. -/
structure MeasRow where
  deveui : ℕ
  t : ℚ
  pos : ℚ × ℚ
  accuracy : ℕ
  battV : SqlVal
  battCap : SqlVal
  temp : SqlVal
  rssi : SqlVal
  snr : SqlVal
  sf : SqlVal
deriving DecidableEq, Repr

/-- Source Message.store (messages.py), restricted to the values written:
deveui, t, pos and accuracy are interpolated directly, while batt_v,
batt_cap, temp, rssi, snr and sf each go through the x if x else NULL
rendering. -/
def store_row (now : ℚ) (m : Meas) : MeasRow :=
  { deveui := m.devEui
    t := now
    pos := (m.latitude, m.longitude)
    accuracy := m.accuracy
    battV := sql_of_q m.battery
    battCap := sql_of_q m.battCapacity
    temp := sql_of_z m.temperature
    rssi := sql_of_opt m.rssi
    snr := sql_of_opt m.snr
    sf := sql_of_opt m.sf }

/-- Source Message.__init__ (messages.py), dev_eui derivation: the hex
hardware identifier parsed to a number and masked with 0x1FF; any parse
failure (missing field, non-hex text) is swallowed and yields 0.  The
parameter holds the parse result, none meaning the failure path. -/
def dev_eui_of (parsed : Option ℕ) : ℕ :=
  match parsed with
  | none => 0
  | some v => v &&& 0x1FF

end Message

/-! Concrete fixtures used by counterexamples and witnesses. -/

/-- A discrete pseudo-distance: 0 between equal coordinates, 1000 m
otherwise.  Stands in for the geodesic distance in concrete scenarios. -/
def distDisc : ℚ × ℚ → ℚ × ℚ → ℚ := fun a b => if a = b then 0 else 1000

/-- A point record at position (x, y) with timestamp t, accuracy 2 m,
battery 3.7 V at 50 %. -/
def mkPt (t x y : ℚ) : PointRec := ⟨t, (x, y), 2, 37 / 10, 50⟩

/-- Four readings at the identical position, newest first: a truly
stationary history. -/
def stationaryPts : List PointRec :=
  [mkPt 400 0 0, mkPt 300 0 0, mkPt 200 0 0, mkPt 100 0 0]

/-- Five readings, newest first, where positions 0, 1, 2 coincide and
positions 3, 4 are elsewhere: the stationary-run scenario of the spec's
test vector. -/
def runPts5 : List PointRec :=
  [mkPt 500 0 0, mkPt 400 0 0, mkPt 300 0 0, mkPt 200 9 9, mkPt 100 9 9]

/-- Four readings at four pairwise distinct positions, newest first: every
pair is 1000 m apart under distDisc, far beyond twice the 2 m accuracy. -/
def farPts : List PointRec :=
  [mkPt 400 0 0, mkPt 300 1 0, mkPt 200 2 0, mkPt 100 3 0]

/-- The empty cows_not_moving cache. -/
def emptyCache : String → Option Warning := fun _ => none

/-- A previously cached not-moving warning for device n1. -/
def cachedWarn : Warning :=
  ⟨WCode.COW_NOT_MOVING, WVariant.DANGER, WValue.tsV 50⟩

/-- A cows_not_moving cache already holding an entry for device n1. -/
def cacheN1 : String → Option Warning :=
  fun n => if n = "n1" then some cachedWarn else none

/-- An 11-byte all-zero frame. -/
def frame0 : List ℕ := List.replicate 11 0

/-- An 11-byte frame whose latitude field (bytes 3 to 6, little endian)
carries the raw value 0x0FFFFFFF in its low 28 bits. -/
def frameLat : List ℕ := [0, 0, 0, 255, 255, 255, 15, 0, 0, 0, 0]

/-- A concrete warning configuration: voltage normal 3.9 and warn 3.6,
capacity warn 60 and danger 20, reference position at the origin, distance
warn 500 and danger 1000 m, staleness warn 3 h and danger 6 h. -/
def cfg0 : Cfg := ⟨39 / 10, 36 / 10, 60, 20, (0, 0), 500, 1000, 10800, 21600⟩

/-- A record whose voltage sits in the tier-1 band of cfg0 while its
capacity sits below the tier-2 danger threshold: both battery warnings
apply at once. -/
def rBoth : PointRec := ⟨0, (0, 0), 2, 37 / 10, 10⟩

/-- A one-device fleet whose only message is old. -/
def devices1 : List (String × PointRec) := [("n1", mkPt 100 0 0)]

/-- A decoded measurement whose temperature is 0, capacity is 0 and whose
radio metadata are all the number 0. -/
def measZero : Message.Meas :=
  ⟨0, false, false, false, 5 / 2, 0, 0, 0, 0, 2, some 0, some 0, some 0⟩

/-! Theorems. -/

/-- C1: the claim reads sameposition(p1,p2) = (distance(p1,p2) <=
2 * max(accuracy(p1), accuracy(p2))), matching the docstring of
Cows._is_same_pos, but the source returns delta > 2*acc: the comparison is
inverted.  At two records with equal coordinates the distance is 0, within
twice the maximal accuracy 2, yet the predicate answers false. -/
theorem c1_same_pos_predicate_inverted :
    Cows.is_same_pos distDisc (mkPt 400 0 0) (mkPt 300 0 0) = false ∧
    distDisc (mkPt 400 0 0).pos (mkPt 300 0 0).pos ≤
      2 * max (mkPt 400 0 0).accuracy (mkPt 300 0 0).accuracy := by
  constructor
  · norm_num [Cows.is_same_pos, distDisc, mkPt, Prod.mk.injEq,
      -Prod.mk_zero_zero]
  · norm_num [distDisc, mkPt, Prod.mk.injEq, -Prod.mk_zero_zero]

/-- C2: the claim says a notification fires exactly once per transition
into the stationary state and that the cached MovementState suppresses
later duplicates.  On the source, a truly stationary history never fires
at all (the inverted predicate skips the branch, leaving cache and outbox
untouched even on the first transition), while a history of pairwise
distant points fires the branch and sends a notification again although
the device's cache entry is already present: the cache is never consulted
before sending. -/
theorem c2_transition_sends_no_notification :
    Cows.check_cow_movement distDisc 12 "n1" stationaryPts emptyCache =
      (emptyCache, []) ∧
    (Cows.check_cow_movement distDisc 12 "n1" farPts cacheN1).2 =
      [("n1", 100)] := by
  constructor
  · norm_num [Cows.check_cow_movement, stationaryPts, mkPt, Cows.is_same_pos,
      distDisc, Prod.mk.injEq, -Prod.mk_zero_zero]
  · norm_num [Cows.check_cow_movement, Cows.scan_run, farPts, mkPt,
      Cows.is_same_pos, distDisc, Prod.mk.injEq, -Prod.mk_zero_zero]

/-- C3: the claim (and the spec's five-measurement test vector, positions
0, 1 and 2 coinciding and position 3 elsewhere) expects the MovementState
to be cached with the timestamp of position 2, here 300.  On the source
the inverted predicate makes the three-in-a-row test fail for coinciding
positions, so the branch is never entered: the cache stays empty and no
notification is sent. -/
theorem c3_stationary_run_not_cached :
    Cows.check_cow_movement distDisc 12 "n1" runPts5 emptyCache =
      (emptyCache, []) ∧
    (Cows.check_cow_movement distDisc 12 "n1" runPts5 emptyCache).1 "n1" =
      none := by
  constructor
  · norm_num [Cows.check_cow_movement, runPts5, mkPt, Cows.is_same_pos,
      distDisc, Prod.mk.injEq, -Prod.mk_zero_zero]
  · norm_num [Cows.check_cow_movement, runPts5, mkPt, Cows.is_same_pos,
      distDisc, Prod.mk.injEq, -Prod.mk_zero_zero, emptyCache]

/-- C4 counterexample: with device n1 already cached, an evaluation over a
history of positions all differing from the cached stationary position
leaves an entry for n1 in place (freshly overwritten, timestamp 100), so
the claim that a differing position removes the entry is false. -/
theorem c4_differing_position_does_not_clear :
    (Cows.check_cow_movement distDisc 12 "n1" farPts cacheN1).1 "n1" =
      some ⟨WCode.COW_NOT_MOVING, WVariant.DANGER, WValue.tsV 100⟩ := by
  norm_num [Cows.check_cow_movement, Cows.scan_run, farPts, mkPt,
    Cows.is_same_pos, distDisc, Prod.mk.injEq, -Prod.mk_zero_zero]

/-- C4 amended: check_cow_movement never removes a cache entry.  Whatever
the history, the hour, the device and the prior cache, a device with a
cache entry before the evaluation still has one after it; the only write
the function performs replaces an entry with a fresh warning. -/
theorem c4_cache_never_cleared (d : ℚ × ℚ → ℚ × ℚ → ℚ) (hour : ℕ)
    (name : String) (points : List PointRec) (cache : String → Option Warning)
    (n : String) (h : cache n ≠ none) :
    (Cows.check_cow_movement d hour name points cache).1 n ≠ none := by
  unfold Cows.check_cow_movement
  split
  · exact h
  · split
    · dsimp only
      split
      · by_cases hn : n = name <;> simp [hn, h]
      · exact h
    · exact h

/-- C4 witness: the amended statement applied to the concrete overwrite
scenario. -/
theorem c4_cache_never_cleared_witness :
    cacheN1 "n1" ≠ none ∧
    (Cows.check_cow_movement distDisc 12 "n1" farPts cacheN1).1 "n1" ≠ none :=
  ⟨by decide,
   c4_cache_never_cleared distDisc 12 "n1" farPts cacheN1 "n1" (by decide)⟩

/-- Membership in a conditionally produced singleton list. -/
theorem mem_ite_singleton {α : Type} {p : Prop} [Decidable p] (w x : α) :
    (x ∈ if p then [w] else []) ↔ p ∧ x = w := by
  split <;> simp [*]

/-- C6: the tier-1 battery warning is in the list exactly under the claim's
strict double inequalities, the tier-2 danger warning exactly under its own
strict inequalities, a voltage exactly at battVWarn leaves both tiers to
their capacity disjuncts, and at cfg0 with voltage 3.7 and capacity 10 the
two tiers appear in the list together. -/
theorem c6_battery_tiers (cfg : Cfg) (d : ℚ × ℚ → ℚ × ℚ → ℚ) (now : ℚ)
    (r : PointRec) :
    ((⟨WCode.BATT_LOW, WVariant.WARNING, WValue.pairQ r.battV r.battCap⟩ :
        Warning) ∈ get_warnings cfg d now r ↔
      (cfg.battVWarn < r.battV ∧ r.battV < cfg.battVNormal) ∨
      (cfg.battCapDanger < r.battCap ∧ r.battCap < cfg.battCapWarn)) ∧
    ((⟨WCode.BATT_LOW, WVariant.DANGER, WValue.pairQ r.battV r.battCap⟩ :
        Warning) ∈ get_warnings cfg d now r ↔
      r.battV < cfg.battVWarn ∨ r.battCap < cfg.battCapDanger) ∧
    (r.battV = cfg.battVWarn →
      (((⟨WCode.BATT_LOW, WVariant.WARNING, WValue.pairQ r.battV r.battCap⟩ :
          Warning) ∈ get_warnings cfg d now r ↔
        cfg.battCapDanger < r.battCap ∧ r.battCap < cfg.battCapWarn) ∧
       ((⟨WCode.BATT_LOW, WVariant.DANGER, WValue.pairQ r.battV r.battCap⟩ :
          Warning) ∈ get_warnings cfg d now r ↔
        r.battCap < cfg.battCapDanger))) ∧
    ((⟨WCode.BATT_LOW, WVariant.WARNING, WValue.pairQ (37 / 10) 10⟩ :
        Warning) ∈ get_warnings cfg0 distDisc 0 rBoth ∧
     (⟨WCode.BATT_LOW, WVariant.DANGER, WValue.pairQ (37 / 10) 10⟩ :
        Warning) ∈ get_warnings cfg0 distDisc 0 rBoth) := by
  have hwarn :
      (⟨WCode.BATT_LOW, WVariant.WARNING, WValue.pairQ r.battV r.battCap⟩ :
        Warning) ∈ get_warnings cfg d now r ↔
      (cfg.battVWarn < r.battV ∧ r.battV < cfg.battVNormal) ∨
      (cfg.battCapDanger < r.battCap ∧ r.battCap < cfg.battCapWarn) := by
    simp only [get_warnings, List.mem_append, mem_ite_singleton,
      Warning.mk.injEq]
    simp
    try tauto
  have hdang :
      (⟨WCode.BATT_LOW, WVariant.DANGER, WValue.pairQ r.battV r.battCap⟩ :
        Warning) ∈ get_warnings cfg d now r ↔
      r.battV < cfg.battVWarn ∨ r.battCap < cfg.battCapDanger := by
    simp only [get_warnings, List.mem_append, mem_ite_singleton,
      Warning.mk.injEq]
    simp
    try tauto
  refine ⟨hwarn, hdang, fun h => ⟨?_, ?_⟩, ?_, ?_⟩
  · rw [hwarn, h]
    simp [lt_irrefl]
  · rw [hdang, h]
    simp [lt_irrefl]
  · norm_num [get_warnings, cfg0, rBoth, distDisc, pyTrunc,
      mem_ite_singleton, Prod.mk.injEq, -Prod.mk_zero_zero]
  · norm_num [get_warnings, cfg0, rBoth, distDisc, pyTrunc,
      mem_ite_singleton, Prod.mk.injEq, -Prod.mk_zero_zero]

/-- C6 witness: the boundary part of the tiered-warning theorem applied at
a record whose voltage equals the cfg0 warn threshold. -/
theorem c6_battery_tiers_witness :
    ((⟨WCode.BATT_LOW, WVariant.WARNING,
        WValue.pairQ (36 / 10) 10⟩ : Warning) ∈
      get_warnings cfg0 distDisc 0 ⟨0, (0, 0), 2, 36 / 10, 10⟩ ↔
      cfg0.battCapDanger < (10 : ℚ) ∧ (10 : ℚ) < cfg0.battCapWarn) :=
  ((c6_battery_tiers cfg0 distDisc 0 ⟨0, (0, 0), 2, 36 / 10, 10⟩).2.2.1
    rfl).1

/-- The foldl collecting per-device warnings, generalized over its
accumulator: it appends the filtered pairs to the initial list. -/
theorem collect_warnings_aux (cfg : Cfg) (d : ℚ × ℚ → ℚ × ℚ → ℚ) (now : ℚ)
    (devices : List (String × PointRec)) :
    ∀ init : List (String × List Warning),
      devices.foldl
        (fun ws nr =>
          if 0 < (get_warnings cfg d now nr.2).length then
            ws ++ [(nr.1, get_warnings cfg d now nr.2)]
          else ws)
        init =
      init ++ devices.filterMap
        (fun nr =>
          if 0 < (get_warnings cfg d now nr.2).length then
            some (nr.1, get_warnings cfg d now nr.2)
          else none) := by
  induction devices with
  | nil => intro init; simp
  | cons nr rest ih =>
    intro init
    by_cases h : 0 < (get_warnings cfg d now nr.2).length
    · simp only [List.foldl_cons, List.filterMap_cons, if_pos h, ih,
        List.append_assoc, List.singleton_append, List.cons_append,
        List.nil_append]
    · simp only [List.foldl_cons, List.filterMap_cons, if_neg h, ih]

/-- Cows.collect_warnings is the filterMap of the non-empty warning lists. -/
theorem collect_warnings_eq (cfg : Cfg) (d : ℚ × ℚ → ℚ × ℚ → ℚ) (now : ℚ)
    (devices : List (String × PointRec)) :
    Cows.collect_warnings cfg d now devices =
      devices.filterMap
        (fun nr =>
          if 0 < (get_warnings cfg d now nr.2).length then
            some (nr.1, get_warnings cfg d now nr.2)
          else none) := by
  unfold Cows.collect_warnings
  rw [collect_warnings_aux]
  simp

/-- The aggregation is empty exactly when no device has warnings. -/
theorem collect_warnings_eq_nil_iff (cfg : Cfg) (d : ℚ × ℚ → ℚ × ℚ → ℚ)
    (now : ℚ) (devices : List (String × PointRec)) :
    Cows.collect_warnings cfg d now devices = [] ↔
      ∀ nr ∈ devices, get_warnings cfg d now nr.2 = [] := by
  rw [collect_warnings_eq, List.filterMap_eq_nil_iff]
  constructor
  · intro h nr hnr
    have hn := h nr hnr
    by_contra hne
    rw [if_pos (List.length_pos.mpr hne)] at hn
    exact Option.some_ne_none _ hn
  · intro h nr hnr
    rw [h nr hnr]
    simp

/-- The fleet-maximum fold dominates its initial value and every
timestamp it scanned. -/
theorem last_msg_fold_ge :
    ∀ (devices : List (String × PointRec)) (acc : ℚ × Option ℚ),
      acc.1 ≤ (devices.foldl
        (fun acc nr => if nr.2.t > acc.1 then (nr.2.t, some nr.2.t) else acc)
        acc).1 ∧
      ∀ nr ∈ devices, nr.2.t ≤ (devices.foldl
        (fun acc nr => if nr.2.t > acc.1 then (nr.2.t, some nr.2.t) else acc)
        acc).1
  | [], acc => ⟨le_refl _, by simp⟩
  | nr :: rest, acc => by
    obtain ⟨h1, h2⟩ :=
      last_msg_fold_ge rest
        (if nr.2.t > acc.1 then (nr.2.t, some nr.2.t) else acc)
    refine ⟨le_trans ?_ h1, ?_⟩
    · split
      · exact le_of_lt (by assumption)
      · exact le_refl _
    · intro mr hmr
      rcases List.mem_cons.mp hmr with heq | hmr

      · subst heq
        refine le_trans ?_ h1
        split
        · exact le_refl _
        · exact le_of_not_lt (by assumption)
      · exact h2 mr hmr

/-- C7: the checkup cycle sends at most one notification and the outcome
is decided exactly as claimed: fleet silence beyond the threshold sends
the gateway notification alone; otherwise an aggregate notification is
sent exactly when some device has a non-empty warning list, and nothing
is sent when none has.  The folded quantity the silence test uses
dominates every device timestamp, so it is the fleet-wide most recent
message time whenever the fleet is non-empty. -/
theorem c7_checkup_outcomes (cfg : Cfg) (d : ℚ × ℚ → ℚ × ℚ → ℚ) (now : ℚ)
    (devices : List (String × PointRec)) :
    (now - (Cows.last_msg_fold devices).1 > Cows.LAST_MSG_TIME_S_WARN →
      Cows.check_all_cows cfg d now devices =
        some (Cows.Notification.gateway (Cows.last_msg_fold devices).2)) ∧
    (¬ now - (Cows.last_msg_fold devices).1 > Cows.LAST_MSG_TIME_S_WARN →
      ((∀ nr ∈ devices, get_warnings cfg d now nr.2 = []) →
        Cows.check_all_cows cfg d now devices = none) ∧
      ((∃ nr ∈ devices, get_warnings cfg d now nr.2 ≠ []) →
        Cows.check_all_cows cfg d now devices =
          some (Cows.Notification.aggregate
            (Cows.collect_warnings cfg d now devices)))) ∧
    (∀ nr ∈ devices, nr.2.t ≤ (Cows.last_msg_fold devices).1) := by
  refine ⟨?_, ?_, ?_⟩
  · intro h
    unfold Cows.check_all_cows
    rw [if_pos h]
  · intro h
    constructor
    · intro hall
      have hnil : Cows.collect_warnings cfg d now devices = [] :=
        (collect_warnings_eq_nil_iff cfg d now devices).mpr hall
      unfold Cows.check_all_cows
      rw [if_neg h, hnil]
      simp
    · rintro ⟨nr, hnr, hne⟩
      have hnnil : Cows.collect_warnings cfg d now devices ≠ [] :=
        fun hnil =>
          hne ((collect_warnings_eq_nil_iff cfg d now devices).mp hnil nr hnr)
      unfold Cows.check_all_cows
      rw [if_neg h, if_neg (by simpa [List.length_eq_zero] using hnnil)]
  · exact (last_msg_fold_ge devices (0, none)).2

/-- C7 witness: a one-device fleet whose only message is 99900 seconds
old, beyond the 10800 second threshold, receives the gateway notification. -/
theorem c7_checkup_outcomes_witness :
    (100000 : ℚ) - (Cows.last_msg_fold devices1).1 >
      Cows.LAST_MSG_TIME_S_WARN ∧
    Cows.check_all_cows cfg0 distDisc 100000 devices1 =
      some (Cows.Notification.gateway (Cows.last_msg_fold devices1).2) := by
  have h : (100000 : ℚ) - (Cows.last_msg_fold devices1).1 >
      Cows.LAST_MSG_TIME_S_WARN := by
    norm_num [Cows.last_msg_fold, Cows.LAST_MSG_TIME_S_WARN, devices1, mkPt]
  exact ⟨h, (c7_checkup_outcomes cfg0 distDisc 100000 devices1).1 h⟩

/-- rdlsbf succeeds whenever the read window lies inside the frame. -/
theorem rdlsbf_isSome (bs : List ℕ) :
    ∀ (l offset : ℕ), offset + l ≤ bs.length →
      (Message.rdlsbf bs offset l).isSome
  | 0, _, _ => rfl
  | l + 1, offset, h => by
    have hb : offset < bs.length := by omega
    obtain ⟨v, hv⟩ := Option.isSome_iff_exists.mp
      (rdlsbf_isSome bs l (offset + 1) (by omega))
    simp only [Message.rdlsbf]
    rw [List.getElem?_eq_getElem hb, hv]
    rfl

/-- C5, amended: on port 136 any frame of at least 11 bytes decodes (the
function is total there, and being a function it is deterministic), with
capacity in [0, 100] and accuracy in {2, 4, ..., 16} as claimed; the
battery voltage however spans [2.5, 4.0] in general, and lies in the
claimed [2.6, 3.9] exactly on the nibble range 1 to 14. -/
theorem c5_decode_total_and_ranges (devEui : ℕ) (rssi snr sf : Option ℚ)
    (bs : List ℕ) (hlen : 11 ≤ bs.length) (hbytes : ∀ b ∈ bs, b < 256) :
    ∃ m, Message.decode devEui rssi snr sf bs 136 = some m ∧
      (5 / 2 : ℚ) ≤ m.battery ∧ m.battery ≤ 4 ∧
      (∀ b1, bs[1]? = some b1 → 1 ≤ b1 % 16 → b1 % 16 ≤ 14 →
        (26 / 10 : ℚ) ≤ m.battery ∧ m.battery ≤ 39 / 10) ∧
      0 ≤ m.battCapacity ∧ m.battCapacity ≤ 100 ∧
      m.accuracy ∈ [2, 4, 6, 8, 10, 12, 14, 16] := by
  have h0 := List.getElem?_eq_getElem (show (0 : ℕ) < bs.length by omega)
  have h1 := List.getElem?_eq_getElem (show (1 : ℕ) < bs.length by omega)
  have h2 := List.getElem?_eq_getElem (show (2 : ℕ) < bs.length by omega)
  obtain ⟨lat4, hlat⟩ := Option.isSome_iff_exists.mp
    (rdlsbf_isSome bs 4 3 (by omega))
  obtain ⟨lonacc, hlon⟩ := Option.isSome_iff_exists.mp
    (rdlsbf_isSome bs 4 7 (by omega))
  simp only [Message.decode, h0, h1, h2, hlat, hlon, if_pos]
  refine ⟨_, rfl, ?_⟩
  dsimp only
  have hmod : bs[1] % 16 ≤ 15 := by omega
  have hmodq : ((bs[1] % 16 : ℕ) : ℚ) ≤ 15 := by exact_mod_cast hmod
  have hmodq0 : (0 : ℚ) ≤ ((bs[1] % 16 : ℕ) : ℚ) := by positivity
  have hb1 : bs[1] < 256 := hbytes _ (List.getElem_mem _)
  have hcap : bs[1] >>> 4 ≤ 15 := by
    rw [Nat.shiftRight_eq_div_pow]
    omega
  have hcapq : ((bs[1] >>> 4 : ℕ) : ℚ) ≤ 15 := by exact_mod_cast hcap
  have hcapq0 : (0 : ℚ) ≤ ((bs[1] >>> 4 : ℕ) : ℚ) := by positivity
  refine ⟨by linarith, by linarith, ?_, by positivity, by linarith, ?_⟩
  · intro b1 hb1eq hlo hhi
    have hbb : bs[1] = b1 := Option.some_inj.mp hb1eq
    rw [← hbb] at hlo hhi
    have hloq : (1 : ℚ) ≤ ((bs[1] % 16 : ℕ) : ℚ) := by exact_mod_cast hlo
    have hhiq : ((bs[1] % 16 : ℕ) : ℚ) ≤ 14 := by exact_mod_cast hhi
    constructor <;> linarith
  · have hk : (lonacc >>> 29) % 8 < 8 := Nat.mod_lt _ (by norm_num)
    interval_cases h : (lonacc >>> 29) % 8 <;> simp

/-- C5 witness: the all-zero 11-byte frame instantiates the amended
statement. -/
theorem c5_decode_total_and_ranges_witness :
    ∃ m, Message.decode 0 none none none frame0 136 = some m ∧
      (5 / 2 : ℚ) ≤ m.battery ∧ m.battery ≤ 4 ∧
      (∀ b1, frame0[1]? = some b1 → 1 ≤ b1 % 16 → b1 % 16 ≤ 14 →
        (26 / 10 : ℚ) ≤ m.battery ∧ m.battery ≤ 39 / 10) ∧
      0 ≤ m.battCapacity ∧ m.battCapacity ≤ 100 ∧
      m.accuracy ∈ [2, 4, 6, 8, 10, 12, 14, 16] :=
  c5_decode_total_and_ranges 0 none none none frame0 (by decide) (by decide)

/-- C5 counterexample: the all-zero frame is an 11-byte frame on port 136
whose battery nibble is 0, decoding to 2.5 V, strictly below the claimed
lower bound of 2.6 V. -/
theorem c5_battery_below_claimed_range :
    Message.decode 0 none none none frame0 136 =
      some ⟨0, false, false, false, 5 / 2, 0, -32, 0, 0, 2,
        none, none, none⟩ ∧
    ¬ ((26 / 10 : ℚ) ≤ 5 / 2) := by
  constructor
  · norm_num [Message.decode, Message.rdlsbf, Message.signed, frame0,
      List.replicate, Message.Meas.mk.injEq, Nat.shiftLeft_eq]
  · norm_num

/-- C8: the sign-extension helper subtracts 2 to the n exactly when the
raw value reaches 2 to the n-1; on 28 bits the raw 0x0FFFFFFF decodes to
-1 and the raw 0x08000000 to -2 to the 27; through decode, a frame whose
latitude field carries raw 0x0FFFFFFF yields latitude -1/1000000 degrees. -/
theorem c8_sign_extension :
    (∀ v n : ℕ, Message.signed v n =
      if 2 ^ (n - 1) ≤ v then (v : ℤ) - 2 ^ n else (v : ℤ)) ∧
    Message.signed 0x0FFFFFFF 28 = -1 ∧
    Message.signed 0x08000000 28 = -(2 ^ 27) ∧
    ∃ m, Message.decode 0 none none none frameLat 136 = some m ∧
      m.latitude = -(1 / 1000000) := by
  have hgen : ∀ v n : ℕ, Message.signed v n =
      if 2 ^ (n - 1) ≤ v then (v : ℤ) - 2 ^ n else (v : ℤ) := by
    intro v n
    simp only [Message.signed, Nat.shiftLeft_eq, one_mul]
    split_ifs <;> push_cast <;> ring
  refine ⟨hgen, ?_, ?_, ?_⟩
  · rw [hgen]
    norm_num
  · rw [hgen]
    norm_num
  · refine ⟨⟨0, false, false, false, 5 / 2, 0, -32, -(1 / 1000000), 0, 2,
      none, none, none⟩, ?_, rfl⟩
    norm_num [Message.decode, Message.rdlsbf, Message.signed, frameLat,
      Message.Meas.mk.injEq, Nat.shiftLeft_eq]

/-- C9: the store step renders a zero temperature, a zero capacity and
zero radio metadata as SQL NULL, identically to an absent value. -/
theorem c9_store_zero_is_null (now : ℚ) (m : Message.Meas) :
    (m.temperature = 0 → (Message.store_row now m).temp =
      Message.SqlVal.null) ∧
    (m.battCapacity = 0 → (Message.store_row now m).battCap =
      Message.SqlVal.null) ∧
    (m.rssi = some 0 → (Message.store_row now m).rssi =
      Message.SqlVal.null ∧
      (Message.store_row now m).rssi = Message.sql_of_opt none) ∧
    (m.snr = some 0 → (Message.store_row now m).snr =
      Message.SqlVal.null ∧
      (Message.store_row now m).snr = Message.sql_of_opt none) ∧
    (m.sf = some 0 → (Message.store_row now m).sf =
      Message.SqlVal.null ∧
      (Message.store_row now m).sf = Message.sql_of_opt none) := by
  refine ⟨?_, ?_, ?_, ?_, ?_⟩ <;> intro h <;>
    simp [Message.store_row, Message.sql_of_q, Message.sql_of_z,
      Message.sql_of_opt, h]

/-- C9 witness: a measurement whose temperature, capacity and radio
metadata are all zero is stored with NULL in each of those columns. -/
theorem c9_store_zero_is_null_witness :
    measZero.temperature = 0 ∧
    (Message.store_row 0 measZero).temp = Message.SqlVal.null ∧
    (Message.store_row 0 measZero).battCap = Message.SqlVal.null ∧
    (Message.store_row 0 measZero).rssi = Message.SqlVal.null :=
  ⟨rfl, (c9_store_zero_is_null 0 measZero).1 rfl,
   (c9_store_zero_is_null 0 measZero).2.1 rfl,
   ((c9_store_zero_is_null 0 measZero).2.2.1 rfl).1⟩

/-- C10: the derived device identifier is at most 511, a failed parse
yields identifier 0, and two hardware identifiers agreeing modulo 512
(that is, in their low 9 bits) collide to the same identifier. -/
theorem c10_dev_eui_masked :
    (∀ p, Message.dev_eui_of p ≤ 511) ∧
    Message.dev_eui_of none = 0 ∧
    (∀ a b : ℕ, a % 512 = b % 512 →
      Message.dev_eui_of (some a) = Message.dev_eui_of (some b)) := by
  have hmask : ∀ v : ℕ, v &&& 511 = v % 512 := by
    intro v
    have := Nat.and_pow_two_sub_one_eq_mod v 9
    norm_num at this
    exact this
  refine ⟨?_, rfl, ?_⟩
  · intro p
    cases p with
    | none => simp [Message.dev_eui_of]
    | some v => exact Nat.and_le_right
  · intro a b h
    show a &&& 511 = b &&& 511
    rw [hmask, hmask, h]

/-- C10 witness: hardware identifiers 513 and 1537 agree in their low 9
bits and collide to the same internal identifier. -/
theorem c10_dev_eui_masked_witness :
    (513 : ℕ) % 512 = 1537 % 512 ∧
    Message.dev_eui_of (some 513) = Message.dev_eui_of (some 1537) :=
  ⟨by norm_num, c10_dev_eui_masked.2.2 513 1537 (by norm_num)⟩

end Cowtracker
